import Mathlib

/-!
Shallow embedding of the TCS3400 driver configuration layer
(src/src/configuration.rs) and proofs about it.

The driver is generic over an I2C bus implementing a blocking write.
We model the bus as an explicit state of abstract type `I2C` together
with a write function `BusWrite I2C E` that consumes the bus state and
returns the new bus state and a result.  Machine integers (`u8`, `u16`)
are modelled as `Nat` with explicit `% 256` / bounds where the source
casts or truncates.
-/

namespace Tcs3400Spec

/-- Modelled from the spec: the fixed device address (`DEVICE_ADDRESS` lives in
lib.rs, which is not under src/; the spec says only that the address is fixed,
and no claim depends on its numeric value). -/
def DEVICE_ADDRESS : Nat := 0x39

namespace Register

/-- Modelled from the spec: the `Register` address constants live in lib.rs,
not under src/.  The spec gives a fixed enumeration of register roles
(enable, wait-time, config, control/gain, integration-time, four interrupt
threshold bytes, interrupt persistence); the claims depend only on the
addresses being fixed and distinct, which these constants are. -/
def ENABLE : Nat := 0x80

/-- Modelled from the spec: integration-time register address. -/
def ATIME : Nat := 0x81

/-- Modelled from the spec: wait-time register address. -/
def WTIME : Nat := 0x83

/-- Modelled from the spec: low threshold, low byte register address. -/
def AILTL : Nat := 0x84

/-- Modelled from the spec: low threshold, high byte register address. -/
def AILTH : Nat := 0x85

/-- Modelled from the spec: high threshold, low byte register address. -/
def AIHTL : Nat := 0x86

/-- Modelled from the spec: high threshold, high byte register address. -/
def AIHTH : Nat := 0x87

/-- Modelled from the spec: interrupt persistence register address. -/
def APERS : Nat := 0x8C

/-- Modelled from the spec: config (wait-long) register address. -/
def CONFIG : Nat := 0x8D

/-- Modelled from the spec: control (gain) register address. -/
def CONTROL : Nat := 0x8F

end Register

namespace BitFlags

/-- Modelled from the spec: the `BitFlags` constants live in lib.rs, not under
src/.  The spec describes them as named single-bit masks and its end-to-end
example fixes POWER_ON = 0x01 and RGBC_INT_EN = 0x10. -/
def POWER_ON : Nat := 0x01

/-- Modelled from the spec: single-bit RGB-converter-enable mask. -/
def RGBC_EN : Nat := 0x02

/-- Modelled from the spec: single-bit wait-enable mask. -/
def WAIT_EN : Nat := 0x08

/-- Modelled from the spec: single-bit RGB-converter-interrupt-enable mask. -/
def RGBC_INT_EN : Nat := 0x10

/-- Modelled from the spec: single-bit wait-long mask of the config register. -/
def WLONG : Nat := 0x02

end BitFlags

/-- All errors in this crate: a wrapped transport error or invalid input data
(`Error<E>` in lib.rs; variants as used by configuration.rs and the spec). -/
inductive Error (E : Type) where
  | I2C (e : E)
  | InvalidInputData
deriving DecidableEq, Repr

/-- The driver instance: bus capability plus cached enable-register byte
(`Tcs3400<I2C>` with fields `i2c` and `enable`). -/
structure Tcs3400 (I2C : Type) where
  i2c : I2C
  enable : Nat
deriving DecidableEq, Repr

/-- A blocking bus-write capability (`embedded_hal::blocking::i2c::Write`):
given the bus state, a device address and the bytes to write, it returns the
new bus state and success or a transport error `E`. -/
def BusWrite (I2C E : Type) : Type :=
  I2C → Nat → List Nat → I2C × Except E Unit

/-- `fn write_register(&mut self, register: u8, value: u8)`: one bus
transaction writing `[register, value]` to `DEVICE_ADDRESS`, transport errors
wrapped by `Error::I2C`. -/
def write_register {I2C E : Type} (wr : BusWrite I2C E) (s : Tcs3400 I2C)
    (register value : Nat) : Tcs3400 I2C × Except (Error E) Unit :=
  match wr s.i2c DEVICE_ADDRESS [register, value] with
  | (i2cNew, Except.ok _) => ({ s with i2c := i2cNew }, Except.ok ())
  | (i2cNew, Except.error e) => ({ s with i2c := i2cNew }, Except.error (Error.I2C e))

/-- `fn write_enable(&mut self, enable: u8)`: writes `enable` to the ENABLE
register; only after the `?` succeeds is the cached `self.enable` updated. -/
def write_enable {I2C E : Type} (wr : BusWrite I2C E) (s : Tcs3400 I2C)
    (enable : Nat) : Tcs3400 I2C × Except (Error E) Unit :=
  match write_register wr s Register.ENABLE enable with
  | (sNew, Except.ok _) => ({ sNew with enable := enable }, Except.ok ())
  | (sNew, Except.error e) => (sNew, Except.error e)

/-- `pub fn enable(&mut self)`: power on (`enable | POWER_ON`). -/
def enable {I2C E : Type} (wr : BusWrite I2C E) (s : Tcs3400 I2C) :
    Tcs3400 I2C × Except (Error E) Unit :=
  write_enable wr s (s.enable ||| BitFlags.POWER_ON)

/-- `pub fn disable(&mut self)`: sleep (`enable & !POWER_ON`; u8 complement is
`255 ^^^ flag`). -/
def disable {I2C E : Type} (wr : BusWrite I2C E) (s : Tcs3400 I2C) :
    Tcs3400 I2C × Except (Error E) Unit :=
  write_enable wr s (s.enable &&& (255 ^^^ BitFlags.POWER_ON))

/-- `pub fn enable_rgbc(&mut self)`. -/
def enable_rgbc {I2C E : Type} (wr : BusWrite I2C E) (s : Tcs3400 I2C) :
    Tcs3400 I2C × Except (Error E) Unit :=
  write_enable wr s (s.enable ||| BitFlags.RGBC_EN)

/-- `pub fn disable_rgbc(&mut self)`. -/
def disable_rgbc {I2C E : Type} (wr : BusWrite I2C E) (s : Tcs3400 I2C) :
    Tcs3400 I2C × Except (Error E) Unit :=
  write_enable wr s (s.enable &&& (255 ^^^ BitFlags.RGBC_EN))

/-- `pub fn enable_rgbc_interrupts(&mut self)`. -/
def enable_rgbc_interrupts {I2C E : Type} (wr : BusWrite I2C E)
    (s : Tcs3400 I2C) : Tcs3400 I2C × Except (Error E) Unit :=
  write_enable wr s (s.enable ||| BitFlags.RGBC_INT_EN)

/-- `pub fn disable_rgbc_interrupts(&mut self)`. -/
def disable_rgbc_interrupts {I2C E : Type} (wr : BusWrite I2C E)
    (s : Tcs3400 I2C) : Tcs3400 I2C × Except (Error E) Unit :=
  write_enable wr s (s.enable &&& (255 ^^^ BitFlags.RGBC_INT_EN))

/-- `pub fn enable_wait(&mut self)`. -/
def enable_wait {I2C E : Type} (wr : BusWrite I2C E) (s : Tcs3400 I2C) :
    Tcs3400 I2C × Except (Error E) Unit :=
  write_enable wr s (s.enable ||| BitFlags.WAIT_EN)

/-- `pub fn disable_wait(&mut self)`. -/
def disable_wait {I2C E : Type} (wr : BusWrite I2C E) (s : Tcs3400 I2C) :
    Tcs3400 I2C × Except (Error E) Unit :=
  write_enable wr s (s.enable &&& (255 ^^^ BitFlags.WAIT_EN))

/-- `pub fn set_wait_cycles(&mut self, cycles: u16)`: validates 1..=256, then
writes `(256 - cycles as u16) as u8` (the `as u8` cast is `% 256`) to WTIME. -/
def set_wait_cycles {I2C E : Type} (wr : BusWrite I2C E) (s : Tcs3400 I2C)
    (cycles : Nat) : Tcs3400 I2C × Except (Error E) Unit :=
  if 256 < cycles ∨ cycles = 0 then (s, Except.error Error.InvalidInputData)
  else write_register wr s Register.WTIME ((256 - cycles) % 256)

/-- `pub fn enable_wait_long(&mut self)`: writes the WLONG byte to CONFIG. -/
def enable_wait_long {I2C E : Type} (wr : BusWrite I2C E) (s : Tcs3400 I2C) :
    Tcs3400 I2C × Except (Error E) Unit :=
  write_register wr s Register.CONFIG BitFlags.WLONG

/-- `pub fn disable_wait_long(&mut self)`: writes 0 to CONFIG. -/
def disable_wait_long {I2C E : Type} (wr : BusWrite I2C E) (s : Tcs3400 I2C) :
    Tcs3400 I2C × Except (Error E) Unit :=
  write_register wr s Register.CONFIG 0

/-- `RgbCGain` (lib.rs): the four gain variants used by configuration.rs. -/
inductive RgbCGain where
  | _1x
  | _4x
  | _16x
  | _60x
deriving DecidableEq, Repr, Fintype

/-- `pub fn set_rgbc_gain(&mut self, gain: RgbCGain)`: the source match on the
gain variant, each arm a direct write to CONTROL. -/
def set_rgbc_gain {I2C E : Type} (wr : BusWrite I2C E) (s : Tcs3400 I2C)
    (gain : RgbCGain) : Tcs3400 I2C × Except (Error E) Unit :=
  match gain with
  | RgbCGain._1x => write_register wr s Register.CONTROL 0
  | RgbCGain._4x => write_register wr s Register.CONTROL 1
  | RgbCGain._16x => write_register wr s Register.CONTROL 2
  | RgbCGain._60x => write_register wr s Register.CONTROL 3

/-- `pub fn set_integration_cycles(&mut self, cycles: u16)`: same validation
and encoding as `set_wait_cycles`, written to ATIME. -/
def set_integration_cycles {I2C E : Type} (wr : BusWrite I2C E)
    (s : Tcs3400 I2C) (cycles : Nat) : Tcs3400 I2C × Except (Error E) Unit :=
  if 256 < cycles ∨ cycles = 0 then (s, Except.error Error.InvalidInputData)
  else write_register wr s Register.ATIME ((256 - cycles) % 256)

/-- `pub fn set_rgbc_interrupt_low_threshold(&mut self, threshold: u16)`:
low byte (`threshold as u8` = `% 256`) to AILTL, then on success the high byte
(`(threshold >> 8) as u8`) to AILTH; the `?` stops on the first error. -/
def set_rgbc_interrupt_low_threshold {I2C E : Type} (wr : BusWrite I2C E)
    (s : Tcs3400 I2C) (threshold : Nat) : Tcs3400 I2C × Except (Error E) Unit :=
  match write_register wr s Register.AILTL (threshold % 256) with
  | (sNew, Except.ok _) =>
      write_register wr sNew Register.AILTH ((threshold >>> 8) % 256)
  | (sNew, Except.error e) => (sNew, Except.error e)

/-- `pub fn set_rgbc_interrupt_high_threshold(&mut self, threshold: u16)`:
same as the low threshold, to AIHTL then AIHTH. -/
def set_rgbc_interrupt_high_threshold {I2C E : Type} (wr : BusWrite I2C E)
    (s : Tcs3400 I2C) (threshold : Nat) : Tcs3400 I2C × Except (Error E) Unit :=
  match write_register wr s Register.AIHTL (threshold % 256) with
  | (sNew, Except.ok _) =>
      write_register wr sNew Register.AIHTH ((threshold >>> 8) % 256)
  | (sNew, Except.error e) => (sNew, Except.error e)

/-- `RgbCInterruptPersistence` (lib.rs): the sixteen persistence levels in
their defined order, as used by configuration.rs. -/
inductive RgbCInterruptPersistence where
  | Every
  | Any
  | _2
  | _3
  | _5
  | _10
  | _15
  | _20
  | _25
  | _30
  | _35
  | _40
  | _45
  | _50
  | _55
  | _60
deriving DecidableEq, Repr, Fintype

/-- `pub fn set_rgbc_interrupt_persistence(&mut self, persistence)`: the
source match, each arm a direct write to APERS. -/
def set_rgbc_interrupt_persistence {I2C E : Type} (wr : BusWrite I2C E)
    (s : Tcs3400 I2C) (persistence : RgbCInterruptPersistence) :
    Tcs3400 I2C × Except (Error E) Unit :=
  match persistence with
  | RgbCInterruptPersistence.Every => write_register wr s Register.APERS 0
  | RgbCInterruptPersistence.Any => write_register wr s Register.APERS 1
  | RgbCInterruptPersistence._2 => write_register wr s Register.APERS 2
  | RgbCInterruptPersistence._3 => write_register wr s Register.APERS 3
  | RgbCInterruptPersistence._5 => write_register wr s Register.APERS 4
  | RgbCInterruptPersistence._10 => write_register wr s Register.APERS 5
  | RgbCInterruptPersistence._15 => write_register wr s Register.APERS 6
  | RgbCInterruptPersistence._20 => write_register wr s Register.APERS 7
  | RgbCInterruptPersistence._25 => write_register wr s Register.APERS 8
  | RgbCInterruptPersistence._30 => write_register wr s Register.APERS 9
  | RgbCInterruptPersistence._35 => write_register wr s Register.APERS 10
  | RgbCInterruptPersistence._40 => write_register wr s Register.APERS 11
  | RgbCInterruptPersistence._45 => write_register wr s Register.APERS 12
  | RgbCInterruptPersistence._50 => write_register wr s Register.APERS 13
  | RgbCInterruptPersistence._55 => write_register wr s Register.APERS 14
  | RgbCInterruptPersistence._60 => write_register wr s Register.APERS 15

/-- A concrete bus for evaluating the driver: a queue of planned outcomes
(`none` = success, `some e` = transport error) and a log of the transactions
performed. -/
structure MockBus (E : Type) where
  responses : List (Option E)
  log : List (Nat × List Nat)
deriving DecidableEq, Repr

/-- The write capability of `MockBus`: pops the next planned outcome (an empty
queue means success) and appends the transaction to the log. -/
def mockWrite {E : Type} : BusWrite (MockBus E) E := fun b addr bytes =>
  match b.responses with
  | [] => ({ b with log := b.log ++ [(addr, bytes)] }, Except.ok ())
  | r :: rest =>
      ({ responses := rest, log := b.log ++ [(addr, bytes)] },
       match r with
       | none => Except.ok ()
       | some e => Except.error e)

/-!
Helper lemmas: case characterizations of the two private write helpers.
-/

/-- Case characterization of `write_register`: exactly one bus transaction
`[register, value]` at the device address; the result mirrors that single
transaction, with the transport error wrapped by `Error.I2C`. -/
theorem write_register_cases {I2C E : Type} (wr : BusWrite I2C E)
    (s : Tcs3400 I2C) (register value : Nat) :
    match wr s.i2c DEVICE_ADDRESS [register, value] with
    | (i2cNew, Except.ok _) =>
        write_register wr s register value = (⟨i2cNew, s.enable⟩, Except.ok ())
    | (i2cNew, Except.error e) =>
        write_register wr s register value =
          (⟨i2cNew, s.enable⟩, Except.error (Error.I2C e)) := by
  rcases h : wr s.i2c DEVICE_ADDRESS [register, value] with ⟨i2cNew, r⟩
  cases r <;> simp [write_register, h]

/-- Case characterization of `write_enable`: on a successful ENABLE write the
cache becomes the written value; on failure the cache is unchanged and the
wrapped bus error is returned. -/
theorem write_enable_cases {I2C E : Type} (wr : BusWrite I2C E)
    (s : Tcs3400 I2C) (v : Nat) :
    match wr s.i2c DEVICE_ADDRESS [Register.ENABLE, v] with
    | (i2cNew, Except.ok _) =>
        write_enable wr s v = (⟨i2cNew, v⟩, Except.ok ())
    | (i2cNew, Except.error e) =>
        write_enable wr s v = (⟨i2cNew, s.enable⟩, Except.error (Error.I2C e)) := by
  have h0 := write_register_cases wr s Register.ENABLE v
  rcases h : wr s.i2c DEVICE_ADDRESS [Register.ENABLE, v] with ⟨i2cNew, r⟩
  rw [h] at h0
  cases r <;> simp_all [write_enable]

/-- The behaviour C1 asserts of a toggle operation `op` computing new enable
value `newVal` from the cached one: the op performs the single ENABLE-register
write of the new value, updates the cache to it exactly when that write
succeeds, and otherwise keeps the cache and propagates the wrapped error. -/
def ToggleSpec {I2C E : Type} (wr : BusWrite I2C E)
    (op : Tcs3400 I2C → Tcs3400 I2C × Except (Error E) Unit)
    (newVal : Nat → Nat) : Prop :=
  ∀ s : Tcs3400 I2C,
    match wr s.i2c DEVICE_ADDRESS [Register.ENABLE, newVal s.enable] with
    | (i2cNew, Except.ok _) =>
        op s = (⟨i2cNew, newVal s.enable⟩, Except.ok ())
    | (i2cNew, Except.error e) =>
        op s = (⟨i2cNew, s.enable⟩, Except.error (Error.I2C e))

/-- C1: every enable/disable toggle (enable, disable, enable_rgbc,
disable_rgbc, enable_rgbc_interrupts, disable_rgbc_interrupts, enable_wait,
disable_wait), from every starting cached enable value and every bus
behaviour, writes its new value to the ENABLE register and updates the cached
enable to that value iff the bus write succeeds; on failure the cache is
unchanged and the bus error is propagated (wrapped). -/
theorem c1_enable_toggles_cache_iff_write_ok {I2C E : Type}
    (wr : BusWrite I2C E) :
    ToggleSpec wr (enable wr) (fun e => e ||| BitFlags.POWER_ON) ∧
    ToggleSpec wr (disable wr) (fun e => e &&& (255 ^^^ BitFlags.POWER_ON)) ∧
    ToggleSpec wr (enable_rgbc wr) (fun e => e ||| BitFlags.RGBC_EN) ∧
    ToggleSpec wr (disable_rgbc wr) (fun e => e &&& (255 ^^^ BitFlags.RGBC_EN)) ∧
    ToggleSpec wr (enable_rgbc_interrupts wr)
      (fun e => e ||| BitFlags.RGBC_INT_EN) ∧
    ToggleSpec wr (disable_rgbc_interrupts wr)
      (fun e => e &&& (255 ^^^ BitFlags.RGBC_INT_EN)) ∧
    ToggleSpec wr (enable_wait wr) (fun e => e ||| BitFlags.WAIT_EN) ∧
    ToggleSpec wr (disable_wait wr) (fun e => e &&& (255 ^^^ BitFlags.WAIT_EN)) :=
  ⟨fun s => write_enable_cases wr s (s.enable ||| BitFlags.POWER_ON),
   fun s => write_enable_cases wr s (s.enable &&& (255 ^^^ BitFlags.POWER_ON)),
   fun s => write_enable_cases wr s (s.enable ||| BitFlags.RGBC_EN),
   fun s => write_enable_cases wr s (s.enable &&& (255 ^^^ BitFlags.RGBC_EN)),
   fun s => write_enable_cases wr s (s.enable ||| BitFlags.RGBC_INT_EN),
   fun s => write_enable_cases wr s (s.enable &&& (255 ^^^ BitFlags.RGBC_INT_EN)),
   fun s => write_enable_cases wr s (s.enable ||| BitFlags.WAIT_EN),
   fun s => write_enable_cases wr s (s.enable &&& (255 ^^^ BitFlags.WAIT_EN))⟩

/-- C9: for every register address and byte value, `write_register` performs
exactly one bus transaction writing `[register, value]` to the fixed device
address, returns an error iff the underlying bus write fails, wraps the
transport error unchanged into `Error.I2C`, and never retries: its entire
result is determined by that single transaction. -/
theorem c9_write_register_single_transaction {I2C E : Type}
    (wr : BusWrite I2C E) (i2c : I2C) (en register value : Nat) :
    match wr i2c DEVICE_ADDRESS [register, value] with
    | (i2cNew, Except.ok _) =>
        write_register wr ⟨i2c, en⟩ register value = (⟨i2cNew, en⟩, Except.ok ())
    | (i2cNew, Except.error e) =>
        write_register wr ⟨i2c, en⟩ register value =
          (⟨i2cNew, en⟩, Except.error (Error.I2C e)) :=
  write_register_cases wr ⟨i2c, en⟩ register value

/-- Frame helper: `write_register` never touches the cached enable field. -/
theorem write_register_fst_enable {I2C E : Type} (wr : BusWrite I2C E)
    (s : Tcs3400 I2C) (register value : Nat) :
    (write_register wr s register value).1.enable = s.enable := by
  have h0 := write_register_cases wr s register value
  rcases h : wr s.i2c DEVICE_ADDRESS [register, value] with ⟨i2cNew, r⟩
  rw [h] at h0
  cases r <;> simp [h0]

/-- C2: `set_wait_cycles` rejects 0 and everything above 256 with
`InvalidInputData` and no bus write (the whole state, bus included, is
returned untouched); for 1..=256 it performs exactly the single write of the
byte `(256 - cycles) % 256` to the WTIME register, so 256 encodes to 0x00 and
1 encodes to 0xFF. -/
theorem c2_set_wait_cycles_spec {I2C E : Type} (wr : BusWrite I2C E)
    (s : Tcs3400 I2C) (cycles : Nat) :
    ((cycles = 0 ∨ 256 < cycles) →
      set_wait_cycles wr s cycles = (s, Except.error Error.InvalidInputData)) ∧
    (1 ≤ cycles → cycles ≤ 256 →
      match wr s.i2c DEVICE_ADDRESS [Register.WTIME, (256 - cycles) % 256] with
      | (i2cNew, Except.ok _) =>
          set_wait_cycles wr s cycles = (⟨i2cNew, s.enable⟩, Except.ok ())
      | (i2cNew, Except.error e) =>
          set_wait_cycles wr s cycles =
            (⟨i2cNew, s.enable⟩, Except.error (Error.I2C e))) ∧
    (256 - 256) % 256 = 0x00 ∧ (256 - 1) % 256 = 0xFF := by
  refine ⟨?_, ?_, rfl, rfl⟩
  · intro h
    have hcond : 256 < cycles ∨ cycles = 0 := by omega
    simp [set_wait_cycles, hcond]
  · intro h1 h2
    have hcond : ¬(256 < cycles ∨ cycles = 0) := by omega
    have h0 := write_register_cases wr s Register.WTIME ((256 - cycles) % 256)
    rcases h : wr s.i2c DEVICE_ADDRESS [Register.WTIME, (256 - cycles) % 256]
      with ⟨i2cNew, r⟩
    rw [h] at h0
    cases r <;> simp_all [set_wait_cycles, hcond]

/-- Witness for C2 on a concrete mock bus: `set_wait_cycles 0` fails without
writing, and `set_wait_cycles 256` performs the single write
`[WTIME, 0x00]`. -/
theorem c2_set_wait_cycles_spec_witness :
    set_wait_cycles (@mockWrite Nat) ⟨⟨[], []⟩, 7⟩ 0 =
      (⟨⟨[], []⟩, 7⟩, Except.error Error.InvalidInputData) ∧
    set_wait_cycles (@mockWrite Nat) ⟨⟨[], []⟩, 7⟩ 256 =
      (⟨⟨[], [(DEVICE_ADDRESS, [Register.WTIME, 0x00])]⟩, 7⟩, Except.ok ()) :=
  ⟨(c2_set_wait_cycles_spec (@mockWrite Nat) ⟨⟨[], []⟩, 7⟩ 0).1 (Or.inl rfl),
   (c2_set_wait_cycles_spec (@mockWrite Nat) ⟨⟨[], []⟩, 7⟩ 256).2.1
     (by decide) (by decide)⟩

/-- Bus wrapper: forwards every transaction unchanged, except that a leading
WTIME register address byte is replaced by ATIME. -/
def retargetWTIMEtoATIME {I2C E : Type} (wr : BusWrite I2C E) :
    BusWrite I2C E :=
  fun i2c addr bytes =>
    wr i2c addr
      (match bytes with
       | [] => []
       | r :: rest => (if r = Register.WTIME then Register.ATIME else r) :: rest)

/-- C3: `set_integration_cycles` behaves exactly like `set_wait_cycles` —
same validation, same `256 - cycles` encoding, same single-write result —
except that the write targets the ATIME register instead of WTIME: it equals
`set_wait_cycles` run over a bus that retargets WTIME to ATIME. -/
theorem c3_set_integration_cycles_is_retargeted_set_wait_cycles
    {I2C E : Type} (wr : BusWrite I2C E) (s : Tcs3400 I2C) (cycles : Nat) :
    set_integration_cycles wr s cycles =
      set_wait_cycles (retargetWTIMEtoATIME wr) s cycles := by
  by_cases hcond : 256 < cycles ∨ cycles = 0
  · simp [set_integration_cycles, set_wait_cycles, hcond]
  · unfold set_integration_cycles set_wait_cycles
    rw [if_neg hcond, if_neg hcond]
    rfl

/-- C8: `enable_wait_long` writes the fixed WLONG byte and
`disable_wait_long` writes the byte zero, both directly to the CONFIG
register; the written bytes are constants — independent of the cached enable
value `en` and of any prior bus history `i2c` — and the cache is untouched. -/
theorem c8_wait_long_direct_overwrite {I2C E : Type} (wr : BusWrite I2C E)
    (i2c : I2C) (en : Nat) :
    (match wr i2c DEVICE_ADDRESS [Register.CONFIG, BitFlags.WLONG] with
     | (i2cNew, Except.ok _) =>
         enable_wait_long wr ⟨i2c, en⟩ = (⟨i2cNew, en⟩, Except.ok ())
     | (i2cNew, Except.error e) =>
         enable_wait_long wr ⟨i2c, en⟩ =
           (⟨i2cNew, en⟩, Except.error (Error.I2C e))) ∧
    (match wr i2c DEVICE_ADDRESS [Register.CONFIG, 0] with
     | (i2cNew, Except.ok _) =>
         disable_wait_long wr ⟨i2c, en⟩ = (⟨i2cNew, en⟩, Except.ok ())
     | (i2cNew, Except.error e) =>
         disable_wait_long wr ⟨i2c, en⟩ =
           (⟨i2cNew, en⟩, Except.error (Error.I2C e))) :=
  ⟨write_register_cases wr ⟨i2c, en⟩ Register.CONFIG BitFlags.WLONG,
   write_register_cases wr ⟨i2c, en⟩ Register.CONFIG 0⟩

/-- C10: every operation other than the eight enable-register toggles leaves
the cached enable field unchanged, whether the call succeeds or fails. -/
theorem c10_non_toggle_ops_preserve_cached_enable {I2C E : Type}
    (wr : BusWrite I2C E) (s : Tcs3400 I2C) (cycles t : Nat) (g : RgbCGain)
    (p : RgbCInterruptPersistence) :
    (set_wait_cycles wr s cycles).1.enable = s.enable ∧
    (set_integration_cycles wr s cycles).1.enable = s.enable ∧
    (enable_wait_long wr s).1.enable = s.enable ∧
    (disable_wait_long wr s).1.enable = s.enable ∧
    (set_rgbc_gain wr s g).1.enable = s.enable ∧
    (set_rgbc_interrupt_low_threshold wr s t).1.enable = s.enable ∧
    (set_rgbc_interrupt_high_threshold wr s t).1.enable = s.enable ∧
    (set_rgbc_interrupt_persistence wr s p).1.enable = s.enable := by
  refine ⟨?_, ?_, ?_, ?_, ?_, ?_, ?_, ?_⟩
  · by_cases hcond : 256 < cycles ∨ cycles = 0 <;>
      simp [set_wait_cycles, hcond, write_register_fst_enable]
  · by_cases hcond : 256 < cycles ∨ cycles = 0 <;>
      simp [set_integration_cycles, hcond, write_register_fst_enable]
  · exact write_register_fst_enable wr s Register.CONFIG BitFlags.WLONG
  · exact write_register_fst_enable wr s Register.CONFIG 0
  · cases g <;> simp [set_rgbc_gain, write_register_fst_enable]
  · unfold set_rgbc_interrupt_low_threshold
    have h1 := write_register_fst_enable wr s Register.AILTL (t % 256)
    rcases h : write_register wr s Register.AILTL (t % 256) with ⟨s1, r1⟩
    rw [h] at h1
    cases r1 <;> simp_all [write_register_fst_enable]
  · unfold set_rgbc_interrupt_high_threshold
    have h1 := write_register_fst_enable wr s Register.AIHTL (t % 256)
    rcases h : write_register wr s Register.AIHTL (t % 256) with ⟨s1, r1⟩
    rw [h] at h1
    cases r1 <;> simp_all [write_register_fst_enable]
  · cases p <;> simp [set_rgbc_interrupt_persistence, write_register_fst_enable]

/-- Masking with 255 is reduction mod 256 (the `as u8` cast). -/
theorem mask255 (n : Nat) : n &&& 255 = n % 256 := by
  have h := Nat.and_pow_two_sub_one_eq_mod n 8
  norm_num at h
  exact h

/-- C4: each threshold setter issues two sequential writes — first the low
byte `t &&& 0xFF` to the ...L register, then the high byte
`(t >>> 8) &&& 0xFF` to the ...H register; if the first write fails the
second is never attempted (the bus state reflects only the first
transaction) and the wrapped error is propagated. -/
theorem c4_thresholds_two_sequential_writes {I2C E : Type}
    (wr : BusWrite I2C E) (s : Tcs3400 I2C) (t : Nat) :
    (match wr s.i2c DEVICE_ADDRESS [Register.AILTL, t &&& 255] with
     | (i2c1, Except.error e) =>
         set_rgbc_interrupt_low_threshold wr s t =
           (⟨i2c1, s.enable⟩, Except.error (Error.I2C e))
     | (i2c1, Except.ok _) =>
         match wr i2c1 DEVICE_ADDRESS [Register.AILTH, (t >>> 8) &&& 255] with
         | (i2c2, Except.ok _) =>
             set_rgbc_interrupt_low_threshold wr s t =
               (⟨i2c2, s.enable⟩, Except.ok ())
         | (i2c2, Except.error e) =>
             set_rgbc_interrupt_low_threshold wr s t =
               (⟨i2c2, s.enable⟩, Except.error (Error.I2C e))) ∧
    (match wr s.i2c DEVICE_ADDRESS [Register.AIHTL, t &&& 255] with
     | (i2c1, Except.error e) =>
         set_rgbc_interrupt_high_threshold wr s t =
           (⟨i2c1, s.enable⟩, Except.error (Error.I2C e))
     | (i2c1, Except.ok _) =>
         match wr i2c1 DEVICE_ADDRESS [Register.AIHTH, (t >>> 8) &&& 255] with
         | (i2c2, Except.ok _) =>
             set_rgbc_interrupt_high_threshold wr s t =
               (⟨i2c2, s.enable⟩, Except.ok ())
         | (i2c2, Except.error e) =>
             set_rgbc_interrupt_high_threshold wr s t =
               (⟨i2c2, s.enable⟩, Except.error (Error.I2C e))) := by
  rw [mask255 t, mask255 (t >>> 8)]
  constructor
  · rcases h1 : wr s.i2c DEVICE_ADDRESS [Register.AILTL, t % 256]
      with ⟨i2c1, r1⟩
    cases r1 with
    | error e => simp [set_rgbc_interrupt_low_threshold, write_register, h1]
    | ok u =>
      cases u
      rcases h2 : wr i2c1 DEVICE_ADDRESS [Register.AILTH, (t >>> 8) % 256]
        with ⟨i2c2, r2⟩
      cases r2 <;>
        simp [set_rgbc_interrupt_low_threshold, write_register, h1, h2]
  · rcases h1 : wr s.i2c DEVICE_ADDRESS [Register.AIHTL, t % 256]
      with ⟨i2c1, r1⟩
    cases r1 with
    | error e => simp [set_rgbc_interrupt_high_threshold, write_register, h1]
    | ok u =>
      cases u
      rcases h2 : wr i2c1 DEVICE_ADDRESS [Register.AIHTH, (t >>> 8) % 256]
        with ⟨i2c2, r2⟩
      cases r2 <;>
        simp [set_rgbc_interrupt_high_threshold, write_register, h1, h2]

/-- The raw CONTROL-register code of each gain variant, as in the source
match of `set_rgbc_gain`. -/
def gainCode : RgbCGain → Nat
  | RgbCGain._1x => 0
  | RgbCGain._4x => 1
  | RgbCGain._16x => 2
  | RgbCGain._60x => 3

/-- C5: `set_rgbc_gain` maps the four gain variants one-to-one to the fixed
raw codes 0/1/2/3 (total over all variants) and writes the code directly to
the CONTROL register — the written byte depends only on the variant, not on
any cached state. -/
theorem c5_gain_mapping {I2C E : Type} (wr : BusWrite I2C E)
    (s : Tcs3400 I2C) :
    (∀ g : RgbCGain, set_rgbc_gain wr s g =
      write_register wr s Register.CONTROL (gainCode g)) ∧
    Function.Injective gainCode ∧
    gainCode RgbCGain._1x = 0 ∧ gainCode RgbCGain._4x = 1 ∧
    gainCode RgbCGain._16x = 2 ∧ gainCode RgbCGain._60x = 3 := by
  refine ⟨?_, ?_, rfl, rfl, rfl, rfl⟩
  · intro g
    cases g <;> rfl
  · intro a b hab
    cases a <;> cases b <;> simp_all [gainCode]

/-- The raw APERS-register code of each persistence level, as in the source
match of `set_rgbc_interrupt_persistence`. -/
def persistenceCode : RgbCInterruptPersistence → Nat
  | RgbCInterruptPersistence.Every => 0
  | RgbCInterruptPersistence.Any => 1
  | RgbCInterruptPersistence._2 => 2
  | RgbCInterruptPersistence._3 => 3
  | RgbCInterruptPersistence._5 => 4
  | RgbCInterruptPersistence._10 => 5
  | RgbCInterruptPersistence._15 => 6
  | RgbCInterruptPersistence._20 => 7
  | RgbCInterruptPersistence._25 => 8
  | RgbCInterruptPersistence._30 => 9
  | RgbCInterruptPersistence._35 => 10
  | RgbCInterruptPersistence._40 => 11
  | RgbCInterruptPersistence._45 => 12
  | RgbCInterruptPersistence._50 => 13
  | RgbCInterruptPersistence._55 => 14
  | RgbCInterruptPersistence._60 => 15

/-- C6: `set_rgbc_interrupt_persistence` maps the sixteen persistence levels
one-to-one to fixed raw codes in 0–15 (total over all levels), the codes are
strictly increasing in the declared order of the levels (constructor index),
and the code is written directly to the APERS register. -/
theorem c6_persistence_mapping {I2C E : Type} (wr : BusWrite I2C E)
    (s : Tcs3400 I2C) :
    (∀ p : RgbCInterruptPersistence, set_rgbc_interrupt_persistence wr s p =
      write_register wr s Register.APERS (persistenceCode p)) ∧
    Function.Injective persistenceCode ∧
    (∀ p, persistenceCode p ≤ 15) ∧
    (∀ p q : RgbCInterruptPersistence,
      RgbCInterruptPersistence.toCtorIdx p < RgbCInterruptPersistence.toCtorIdx q →
        persistenceCode p < persistenceCode q) := by
  refine ⟨?_, by decide, by decide, by decide⟩
  intro p
  cases p <;> rfl

/-- On a bus whose writes all succeed, `write_enable` succeeds and sets the
cache to the written value. -/
theorem write_enable_of_ok {I2C E : Type} (wr : BusWrite I2C E)
    (hok : ∀ i2c addr bytes, (wr i2c addr bytes).2 = Except.ok ())
    (s : Tcs3400 I2C) (v : Nat) :
    write_enable wr s v =
      (⟨(wr s.i2c DEVICE_ADDRESS [Register.ENABLE, v]).1, v⟩, Except.ok ()) := by
  have h0 := write_enable_cases wr s v
  have h2 := hok s.i2c DEVICE_ADDRESS [Register.ENABLE, v]
  rcases h : wr s.i2c DEVICE_ADDRESS [Register.ENABLE, v] with ⟨i2cNew, r⟩
  rw [h] at h0 h2
  cases r with
  | ok u => cases u; simp [h0, h]
  | error e => simp at h2

set_option maxRecDepth 4000 in
/-- Bit behaviour of enabling then disabling the power-on bit, over every
u8 cache value: bit 0 ends cleared and bits 1..7 keep the value they had
after the enable. -/
theorem power_bit_clear_helper :
    ∀ e < 256,
      (((e ||| BitFlags.POWER_ON) &&& (255 ^^^ BitFlags.POWER_ON)).testBit 0
        = false) ∧
      (∀ i < 8, i ≠ 0 →
        ((e ||| BitFlags.POWER_ON) &&& (255 ^^^ BitFlags.POWER_ON)).testBit i
          = (e ||| BitFlags.POWER_ON).testBit i) := by
  decide

/-- C7: assuming every bus write succeeds and the cached enable value is a
byte, calling `enable` twice yields the same cached value as calling it once;
and calling `disable` after `enable` clears exactly the power-on bit of the
cached value, leaving every other bit of the post-enable cache unchanged. -/
theorem c7_enable_idempotent_disable_clears_power_bit {I2C E : Type}
    (wr : BusWrite I2C E) (s : Tcs3400 I2C)
    (hok : ∀ i2c addr bytes, (wr i2c addr bytes).2 = Except.ok ())
    (hlt : s.enable < 256) :
    (enable wr (enable wr s).1).1.enable = (enable wr s).1.enable ∧
    (disable wr (enable wr s).1).1.enable.testBit 0 = false ∧
    (∀ i < 8, i ≠ 0 →
      (disable wr (enable wr s).1).1.enable.testBit i =
        (enable wr s).1.enable.testBit i) := by
  have e1 := write_enable_of_ok wr hok s (s.enable ||| BitFlags.POWER_ON)
  have h1 : (enable wr s).1 =
      ⟨(wr s.i2c DEVICE_ADDRESS
          [Register.ENABLE, s.enable ||| BitFlags.POWER_ON]).1,
        s.enable ||| BitFlags.POWER_ON⟩ := by
    unfold enable
    rw [e1]
  have hbits := power_bit_clear_helper s.enable hlt
  refine ⟨?_, ?_, ?_⟩
  · rw [h1]
    unfold enable
    rw [write_enable_of_ok wr hok]
    simp [Nat.or_assoc]
  · rw [h1]
    unfold disable
    rw [write_enable_of_ok wr hok]
    exact hbits.1
  · intro i hi hi0
    rw [h1]
    unfold disable
    rw [write_enable_of_ok wr hok]
    exact hbits.2 i hi hi0

/-- A trivial bus on which every write succeeds; used to evaluate theorems
with a success hypothesis. -/
def okBus : BusWrite Unit Unit := fun u _ _ => (u, Except.ok ())

/-- Witness for C7 at the concrete always-succeeding bus and cache 0x2A. -/
theorem c7_enable_idempotent_disable_clears_power_bit_witness :
    (enable okBus (enable okBus ⟨(), 0x2A⟩).1).1.enable =
      (enable okBus ⟨(), 0x2A⟩).1.enable :=
  (c7_enable_idempotent_disable_clears_power_bit okBus ⟨(), 0x2A⟩
    (fun _ _ _ => rfl) (by decide)).1

end Tcs3400Spec
